import Mathlib

/-!
Verification of `src/bin/fuzz.py`, the fuzz-testing harness for the
dose-response game, against its natural-language specification.

The Python source is shallowly embedded: pure functions become Lean
functions; the random calls (`random.choice`, `random.random`,
`random.randint`) are modelled by making each decision point explicit —
`next_command` returns the candidate list from which `random.choice`
draws uniformly (a singleton for a deterministic return), the momentum
draw `random.random() <= 0.75` is a boolean parameter, and the
`randint` result is a parameter constrained to its inclusive range.
The subprocess/socket environment of `test_run` is abstracted into a
record of the externally observable facts the code branches on, and the
filesystem side effects are collected into an ordered list.
-/

/-- Tile kinds produced by `cell_type` (fuzz.py lines 39-58). -/
inductive Tile where
  | player
  | empty
  | wall
  | monster
  | food
  | dose
  | unknown
deriving DecidableEq, Repr

/-- The seven tile kinds, as listed in the spec's fixed tile-kind set. -/
def allTiles : List Tile :=
  [Tile.player, Tile.empty, Tile.wall, Tile.monster, Tile.food, Tile.dose, Tile.unknown]

/-- fuzz.py lines 39-58: the `types` table with an `unknown` fallback. -/
def cell_type (cell : Char) : Tile :=
  match cell with
  | '@' => Tile.player
  | '.' => Tile.empty
  | '#' => Tile.wall
  | 'a' => Tile.monster
  | 'h' => Tile.monster
  | 'D' => Tile.monster
  | 'S' => Tile.monster
  | 'v' => Tile.monster
  | '%' => Tile.food
  | 'i' => Tile.dose
  | 'I' => Tile.dose
  | '+' => Tile.dose
  | 'x' => Tile.dose
  | _ => Tile.unknown

/-- A snapshot message from the game: `{"width": .., "height": .., "cells": [..]}`. -/
structure Message where
  width : Nat
  height : Nat
  cells : List Char
deriving Repr

/-- Python list indexing with an Int index: a negative index `-k` addresses
`cells[len-k]`.  Accesses outside `[-len, len)` raise IndexError in
Python; this model is total instead (`'?'`, classified `unknown`, above
range; Nat truncation to element 0 below `-len`), so it agrees with
Python only on in-range indices.  Every theorem below that evaluates a
neighborhood therefore carries interior-agent hypotheses keeping all
eight neighbor indices strictly inside the grid, where model and Python
agree. -/
def pyIndex (l : List Char) (i : Int) : Char :=
  if 0 ≤ i then l.getD i.toNat '?'
  else l.getD (l.length - (-i).toNat) '?'

/-- fuzz.py lines 36-37: `get_cell(x, y) = cells[y * width + x]`. -/
def get_cell (msg : Message) (x y : Int) : Char :=
  pyIndex msg.cells (y * (msg.width : Int) + x)

/-- fuzz.py lines 61-65: the scan
`for x in range(width): for y in range(height): if player: record (x, y)`.
The last player cell found in this order wins (the variables are
overwritten); if none is found the variables stay unbound, and the
subsequent read raises NameError — modelled by `none`. -/
def find_player (msg : Message) : Option (Int × Int) :=
  (List.range msg.width).foldl
    (fun (acc : Option (Int × Int)) (x : Nat) =>
      (List.range msg.height).foldl
        (fun (acc : Option (Int × Int)) (y : Nat) =>
          if cell_type (get_cell msg (x : Int) (y : Int)) = Tile.player
          then some ((x : Int), (y : Int)) else acc)
        acc)
    none

/-- The coordinates visited by the player scan, in scan order
(x ascending in the outer loop, y ascending in the inner loop). -/
def scan_pairs (msg : Message) : List (Int × Int) :=
  (List.range msg.width).flatMap
    (fun (x : Nat) => (List.range msg.height).map (fun (y : Nat) => ((x : Int), (y : Int))))

/-- Whether the scanned coordinate holds a player cell. -/
def is_player (msg : Message) (pr : Int × Int) : Bool :=
  cell_type (get_cell msg pr.1 pr.2) = Tile.player

/-- The scanned coordinates holding player cells, in scan order. -/
def player_cells (msg : Message) : List (Int × Int) :=
  (scan_pairs msg).filter (is_player msg)

/-- A Surroundings value is the dict built at fuzz.py lines 68-79: string
keys in insertion order, each mapped to a classified tile. -/
abbrev Surroundings := List (String × Tile)

/-- fuzz.py lines 68-79: the 8-neighborhood dict around `(x, y)`, keys in
the insertion order of the source literal. -/
def neighborhood (msg : Message) (x y : Int) : Surroundings :=
  [("NW", cell_type (get_cell msg (x - 1) (y - 1))),
   ("N",  cell_type (get_cell msg x (y - 1))),
   ("NE", cell_type (get_cell msg (x + 1) (y - 1))),
   ("W",  cell_type (get_cell msg (x - 1) y)),
   ("E",  cell_type (get_cell msg (x + 1) y)),
   ("SW", cell_type (get_cell msg (x - 1) (y + 1))),
   ("S",  cell_type (get_cell msg x (y + 1))),
   ("SE", cell_type (get_cell msg (x + 1) (y + 1)))]

/-- fuzz.py lines 32-80: `surroundings_from_message`.  The assert at line
60 checks `len(cells) == width * height` (an AssertionError, like the
NameError from a missing player, means no Surroundings is produced —
both are `none` here). -/
def surroundings_from_message (msg : Message) : Option Surroundings :=
  if msg.cells.length = msg.width * msg.height then
    (find_player msg).map (fun pr => neighborhood msg pr.1 pr.2)
  else none

/-- fuzz.py line 84: `directions = 'NW N NE W E SW S SE'.split()`. -/
def directions : List String := ["NW", "N", "NE", "W", "E", "SW", "S", "SE"]

/-- fuzz.py lines 103-112: the `adjacent_directions` dict, as a lookup
(value of each key); unknown keys are absent in the dict. -/
def adjacent_directions : String → List String
  | "NW" => ["N", "W"]
  | "N"  => ["NE", "NW"]
  | "NE" => ["N", "E"]
  | "W"  => ["NW", "SW"]
  | "E"  => ["NE", "SE"]
  | "SW" => ["S", "W"]
  | "S"  => ["SE", "SW"]
  | "SE" => ["S", "E"]
  | _    => []

/-- The key iteration order of the `adjacent_directions` dict: Python
dict iteration follows insertion order (fuzz.py lines 104-111). -/
def adjacent_directions_keys : List String :=
  ["NW", "N", "NE", "W", "E", "SW", "S", "SE"]

/-- Dictionary lookup `display[key]`.  A missing key raises KeyError in Python; the
`unknown` default is never exercised: the code only looks up a key that
is in `directions`, and every Surroundings built by the classifier has
exactly those keys. -/
def display_get (display : Surroundings) (key : String) : Tile :=
  (display.lookup key).getD Tile.unknown

/-- fuzz.py lines 89-90: the comprehension
`[direction for direction, tile in display.items() if tile == 'food']`. -/
def food_directions (display : Surroundings) : List String :=
  (display.filter (fun pr => pr.2 = Tile.food)).map Prod.fst

/-- fuzz.py lines 94-95: the `dose` comprehension. -/
def dose_directions (display : Surroundings) : List String :=
  (display.filter (fun pr => pr.2 = Tile.dose)).map Prod.fst

/-- fuzz.py lines 113-114: `[direction for direction in adjacent_directions
if display[direction] in ('empty', 'monster')]` — note the source iterates
over the KEYS of the `adjacent_directions` dict (all 8 directions), not
over `adjacent_directions[previous_command]`. -/
def preferred_directions (display : Surroundings) : List String :=
  adjacent_directions_keys.filter
    (fun d => display_get display d = Tile.empty ∨ display_get display d = Tile.monster)

/-- fuzz.py lines 118-119: the `empty`-or-`monster` comprehension. -/
def walkable_directions (display : Surroundings) : List String :=
  (display.filter (fun pr => pr.2 = Tile.empty ∨ pr.2 = Tile.monster)).map Prod.fst

/-- fuzz.py lines 83-123: `next_command`, as the candidate list handed to
`random.choice` (a uniform draw; a singleton list is the deterministic
`return previous_command`).  `momentum` models `random.random() <= 0.75`
at line 100; the Python short-circuit draws it only in that branch, which
does not change which list is returned.  `not display` is true both for
`None` and for an empty dict, hence the first two cases. -/
def next_command (previous_command : Option String) (display : Option Surroundings)
    (momentum : Bool) : List String :=
  match display, previous_command with
  | none, _ => directions
  | some [], _ => directions
  | _, none => directions
  | some disp, some prev =>
    if (food_directions disp).isEmpty = false then food_directions disp
    else if (dose_directions disp).isEmpty = false then dose_directions disp
    else
      match (if prev ∈ directions ∧ momentum then
               if display_get disp prev = Tile.empty ∨ display_get disp prev = Tile.monster then
                 some [prev]
               else if (preferred_directions disp).isEmpty = false then
                 some (preferred_directions disp)
               else none
             else none : Option (List String)) with
      | some result => result
      | none =>
        if (walkable_directions disp).isEmpty = false then walkable_directions disp
        else directions

/-- A key event record as built by `key_from_code` (fuzz.py lines 23-29). -/
structure KeyEvent where
  code : String
  alt : Bool
  ctrl : Bool
  shift : Bool
deriving DecidableEq, Repr

/-- fuzz.py lines 23-29: `key_from_code`. -/
def key_from_code (key_code : String) : KeyEvent :=
  { code := key_code, alt := false, ctrl := false, shift := false }

/-- fuzz.py lines 127-138: the command→key-name dict, in source order. -/
def command_key_mapping : List (String × String) :=
  [("NW", "NumPad7"),
   ("N",  "Up"),
   ("NE", "NumPad9"),
   ("W",  "Left"),
   ("E",  "Right"),
   ("SW", "NumPad1"),
   ("S",  "Down"),
   ("SE", "NumPad3"),
   ("Eat", "D1"),
   ("Quit", "Q")]

/-- fuzz.py lines 126-139: `key_from_command`.  `mapping[command]` raises
KeyError for a command outside the table — modelled by `none`. -/
def key_from_command (command : String) : Option KeyEvent :=
  ((command_key_mapping).lookup command).map key_from_code

/-- The ten actions of the spec's Action set. -/
def all_commands : List String :=
  ["N", "NE", "E", "SE", "S", "SW", "W", "NW", "Eat", "Quit"]

/-- fuzz.py line 163: `max_turns = 200 + random.randint(10, 200)`.
`draw` models the `random.randint(10, 200)` result, which per Python
semantics is a uniform integer with BOTH endpoints included:
`10 ≤ draw ≤ 200`. -/
def max_turns (draw : Nat) : Nat := 200 + draw

/-- fuzz.py lines 171-174: the per-iteration command selection of the
session loop in `run_game` — `Quit` is forced once `turns > max_turns`,
otherwise the Decision Policy chooses. -/
def run_game_command (turns mt : Nat) (previous_command : Option String)
    (display : Option Surroundings) (momentum : Bool) : List String :=
  if turns > mt then ["Quit"] else next_command previous_command display momentum

/-- Trial outcomes, the strings returned by `test_run`. -/
inductive Outcome where
  | SUCCESS
  | FAILURE
  | UNEXPECTED
deriving DecidableEq, Repr

/-- How the `run_game` session loop ended: a Quit after the turn limit, a
3-second reply timeout (fuzz.py lines 190-197), or no writable socket
(lines 183-185).  `run_game` returns `None` in every case; `test_run`
never observes this value. -/
inductive SessionEnd where
  | quit
  | timeout
  | no_writable
deriving DecidableEq, Repr

/-- The externally observable facts `test_run` (fuzz.py lines 204-266)
branches on, for one trial: the `cargo build` return code, whether the
game process is still alive after the 1-second settle (`game.poll() is
None` at line 221), how the session loop ended, the game's poll result
after the session (line 232), and the replay's exit code (line 248). -/
structure TrialEnv where
  build_rc : Int
  game_alive_after_settle : Bool
  session_end : SessionEnd
  game_poll_after_session : Option Int
  replay_rc : Int
deriving DecidableEq, Repr

/-- The side effects of `test_run`, in the order they are performed. -/
inductive Effect where
  | kill_game
  | run_replay
  | report_bug_path
  | copy_trace
  | unlink_temp
deriving DecidableEq, Repr

/-- fuzz.py lines 243-266: the replay phase of `test_run`.  Exit code 0:
delete the temporary trace, return SUCCESS.  Nonzero: print the archive
path, copy the trace to the timestamped path under `replays/bugs`, delete
the temporary copy, return FAILURE. -/
def replay_phase (env : TrialEnv) (eff : List Effect) : Outcome × List Effect :=
  if env.replay_rc = 0 then
    (Outcome.SUCCESS, eff ++ [Effect.run_replay, Effect.unlink_temp])
  else
    (Outcome.FAILURE,
      eff ++ [Effect.run_replay, Effect.report_bug_path, Effect.copy_trace, Effect.unlink_temp])

/-- fuzz.py lines 204-266: `test_run`.  Build failure or a game that died
during the settle wait returns UNEXPECTED before any replay.  After the
session (whose ending `run_game` does not report back), `game.poll()` is
consulted: still running → kill it and fall through; exited 0 → fall
through; exited nonzero → UNEXPECTED.  The fall-through path always runs
the replay phase. -/
def test_run (env : TrialEnv) : Outcome × List Effect :=
  if env.build_rc ≠ 0 then (Outcome.UNEXPECTED, [])
  else if env.game_alive_after_settle = false then (Outcome.UNEXPECTED, [])
  else
    match env.game_poll_after_session with
    | none => replay_phase env [Effect.kill_game]
    | some rc => if rc = 0 then replay_phase env [] else (Outcome.UNEXPECTED, [])

/-- fuzz.py lines 275-285: `results['SUCCESS']` after tallying the listed
trial outcomes. -/
def success_count (outcomes : List Outcome) : Nat :=
  (outcomes.filter (fun o => o = Outcome.SUCCESS)).length

/-- fuzz.py lines 292-296: the final exit status.  `outcomes` is the list
of trial results actually tallied; the `for i in range(test_count)` loop
runs at most `test_count` trials (fewer on KeyboardInterrupt). -/
def final_return_code (test_count : Nat) (outcomes : List Outcome) : Nat :=
  if success_count outcomes = test_count then 0 else 1

/-- A 3x3 snapshot with a single agent cell in the interior. -/
def msg1p : Message :=
  { width := 3, height := 3,
    cells := ['#', '#', '#', '#', '@', '#', '#', '#', '#'] }

/-- A 5x3 snapshot with TWO agent cells, both interior:
row 0 `#####`, row 1 `#@.@#`, row 2 `#####`. -/
def msg2p : Message :=
  { width := 5, height := 3,
    cells := ['#', '#', '#', '#', '#',
              '#', '@', '.', '@', '#',
              '#', '#', '#', '#', '#'] }

/-- Surroundings with no food/dose, previous direction N blocked, NE and S
the only walkable tiles. -/
def dispMomentum : Surroundings :=
  [("NW", Tile.wall), ("N", Tile.wall), ("NE", Tile.empty), ("W", Tile.wall),
   ("E", Tile.wall), ("SW", Tile.wall), ("S", Tile.empty), ("SE", Tile.wall)]

/-- Surroundings whose only food tile is at N. -/
def dispFoodN : Surroundings :=
  [("NW", Tile.wall), ("N", Tile.food), ("NE", Tile.wall), ("W", Tile.wall),
   ("E", Tile.wall), ("SW", Tile.wall), ("S", Tile.empty), ("SE", Tile.wall)]

/-- A trial whose session timed out waiting for a reply, whose game process
was still running afterwards, and whose replay exited 0. -/
def env_timeout : TrialEnv :=
  { build_rc := 0, game_alive_after_settle := true,
    session_end := SessionEnd.timeout,
    game_poll_after_session := none, replay_rc := 0 }

/-- A trial that reaches the replay phase and whose replay exits 1. -/
def env_replay_fail : TrialEnv :=
  { build_rc := 0, game_alive_after_settle := true,
    session_end := SessionEnd.quit,
    game_poll_after_session := some 0, replay_rc := 1 }

theorem foldl_if_last {α : Type} (p : α → Bool) :
    ∀ (l : List α) (acc : Option α),
      l.foldl (fun acc a => if p a then some a else acc) acc
        = ((l.filter p).getLast?).or acc := by
  intro l
  induction l with
  | nil => intro acc; simp
  | cons a l ih =>
    intro acc
    rw [List.foldl_cons, ih, List.filter_cons]
    by_cases h : p a
    · rw [if_pos h, if_pos h]
      cases hfl : (l.filter p).getLast? with
      | none =>
        have : l.filter p = [] := List.getLast?_eq_none_iff.mp hfl
        simp [this]
      | some b =>
        have hne : l.filter p ≠ [] := by
          intro hnil; rw [hnil] at hfl; simp at hfl
        obtain ⟨c, t, hct⟩ := List.exists_cons_of_ne_nil hne
        rw [hct] at hfl ⊢
        rw [List.getLast?_cons_cons, hfl]
        simp
    · rw [if_neg h, if_neg h]

theorem foldl_flatMap_eq {α β γ : Type} (g : α → List β) (f : γ → β → γ) :
    ∀ (xs : List α) (a : γ),
      (xs.flatMap g).foldl f a = xs.foldl (fun a x => (g x).foldl f a) a := by
  intro xs
  induction xs with
  | nil => intro a; rfl
  | cons x xs ih => intro a; rw [List.flatMap_cons, List.foldl_append, List.foldl_cons, ih]

theorem find_player_eq (msg : Message) :
    find_player msg = (player_cells msg).getLast? := by
  have h1 : find_player msg
      = (scan_pairs msg).foldl
          (fun acc pr => if is_player msg pr then some pr else acc) none := by
    unfold find_player scan_pairs
    rw [foldl_flatMap_eq]
    simp only [List.foldl_map, is_player, decide_eq_true_eq]
  rw [h1, foldl_if_last (is_player msg) (scan_pairs msg) none, Option.or_none, player_cells]

theorem tile_mem_allTiles (t : Tile) : t ∈ allTiles := by
  cases t <;> simp [allTiles]

theorem mem_fst_of_mem_fst_filter {q : String × Tile → Bool} {l : Surroundings} {c : String}
    (h : c ∈ (l.filter q).map Prod.fst) : c ∈ l.map Prod.fst := by
  simp only [List.mem_map] at h ⊢
  obtain ⟨pr, hpr, rfl⟩ := h
  exact ⟨pr, List.mem_of_mem_filter hpr, rfl⟩

theorem mem_directions_ne (c : String) (h : c ∈ directions) :
    c ≠ "Eat" ∧ c ≠ "Quit" := by
  fin_cases h <;> exact ⟨by decide, by decide⟩

theorem classifier_keys (msg : Message) (s : Surroundings)
    (h : surroundings_from_message msg = some s) : s.map Prod.fst = directions := by
  unfold surroundings_from_message at h
  by_cases hlen : msg.cells.length = msg.width * msg.height
  · rw [if_pos hlen] at h
    obtain ⟨pr, _, rfl⟩ := Option.map_eq_some'.mp h
    rfl
  · rw [if_neg hlen] at h
    exact absurd h (by simp)

theorem next_command_cases (prev : String) (disp : Surroundings) (momentum : Bool) :
    next_command (some prev) (some disp) momentum = directions
    ∨ (next_command (some prev) (some disp) momentum = food_directions disp
        ∧ food_directions disp ≠ [])
    ∨ (next_command (some prev) (some disp) momentum = dose_directions disp
        ∧ dose_directions disp ≠ [])
    ∨ (next_command (some prev) (some disp) momentum = [prev] ∧ prev ∈ directions)
    ∨ (next_command (some prev) (some disp) momentum = preferred_directions disp
        ∧ preferred_directions disp ≠ [])
    ∨ (next_command (some prev) (some disp) momentum = walkable_directions disp
        ∧ walkable_directions disp ≠ []) := by
  cases disp with
  | nil => exact Or.inl rfl
  | cons hd tl =>
    simp only [next_command]
    by_cases hf : (food_directions (hd :: tl)).isEmpty = false
    · rw [if_pos hf]
      exact Or.inr (Or.inl ⟨rfl, List.isEmpty_eq_false.mp hf⟩)
    · rw [if_neg hf]
      by_cases hdose : (dose_directions (hd :: tl)).isEmpty = false
      · rw [if_pos hdose]
        exact Or.inr (Or.inr (Or.inl ⟨rfl, List.isEmpty_eq_false.mp hdose⟩))
      · rw [if_neg hdose]
        by_cases hm : prev ∈ directions ∧ momentum = true
        · by_cases hw : display_get (hd :: tl) prev = Tile.empty
              ∨ display_get (hd :: tl) prev = Tile.monster
          · rw [if_pos hm, if_pos hw]
            exact Or.inr (Or.inr (Or.inr (Or.inl ⟨rfl, hm.1⟩)))
          · rw [if_pos hm, if_neg hw]
            by_cases hp : (preferred_directions (hd :: tl)).isEmpty = false
            · rw [if_pos hp]
              exact Or.inr (Or.inr (Or.inr (Or.inr (Or.inl ⟨rfl, List.isEmpty_eq_false.mp hp⟩))))
            · rw [if_neg hp]
              by_cases hwd : (walkable_directions (hd :: tl)).isEmpty = false
              · rw [if_pos hwd]
                exact Or.inr (Or.inr (Or.inr (Or.inr (Or.inr ⟨rfl, List.isEmpty_eq_false.mp hwd⟩))))
              · rw [if_neg hwd]
                exact Or.inl rfl
        · rw [if_neg hm]
          by_cases hwd : (walkable_directions (hd :: tl)).isEmpty = false
          · rw [if_pos hwd]
            exact Or.inr (Or.inr (Or.inr (Or.inr (Or.inr ⟨rfl, List.isEmpty_eq_false.mp hwd⟩))))
          · rw [if_neg hwd]
            exact Or.inl rfl

/-- Claim C8: for every valid snapshot — cells length equals
width*height, exactly one agent cell (at `(px, py)`), agent not adjacent
to the grid edge — the Surroundings Classifier returns a mapping whose
key set is exactly the 8 compass directions in the source's order, each
mapped to a value in the fixed tile-kind set. -/
theorem classifier_valid_snapshot_shape (msg : Message) (px py : Int)
    (hlen : msg.cells.length = msg.width * msg.height)
    (hone : player_cells msg = [(px, py)])
    (_hx1 : 1 ≤ px) (_hx2 : px + 1 < (msg.width : Int))
    (_hy1 : 1 ≤ py) (_hy2 : py + 1 < (msg.height : Int)) :
    ∃ s, surroundings_from_message msg = some s
      ∧ s.map Prod.fst = ["NW", "N", "NE", "W", "E", "SW", "S", "SE"]
      ∧ ∀ pr ∈ s, pr.2 ∈ allTiles := by
  refine ⟨neighborhood msg px py, ?_, rfl, ?_⟩
  · unfold surroundings_from_message
    rw [if_pos hlen, find_player_eq, hone]
    rfl
  · intro pr _
    exact tile_mem_allTiles pr.2

/-- Claim C8 witness: the 3x3 snapshot with a single interior agent. -/
theorem classifier_valid_snapshot_shape_witness :
    ∃ s, surroundings_from_message msg1p = some s
      ∧ s.map Prod.fst = ["NW", "N", "NE", "W", "E", "SW", "S", "SE"]
      ∧ ∀ pr ∈ s, pr.2 ∈ allTiles :=
  classifier_valid_snapshot_shape msg1p 1 1 (by decide) (by decide)
    (by decide) (by decide) (by decide) (by decide)

/-- Claim C2 counterexample: a snapshot with consistent dimensions and
TWO agent cells on which the classifier does NOT fail: it returns a
Surroundings mapping. -/
theorem classifier_two_agents_returns :
    (player_cells msg2p).length = 2
    ∧ (surroundings_from_message msg2p).isSome = true := by decide

/-- Claim C2 (amended): for snapshots with consistent dimensions, zero
agent cells make the classifier fail deterministically (the player
variables stay unbound, raising NameError); but with one or more agent
cells whose LAST occurrence in scan order (x ascending, then y
ascending) is interior to the grid — so that every neighbor access is
in range, as at the counterexample — it does not fail: it returns the
Surroundings centred on that last agent cell.  (With an edge-adjacent
last agent, Python's neighbor accesses can instead raise IndexError, so
nothing is claimed there.) -/
theorem classifier_zero_vs_many_agents (msg : Message)
    (hlen : msg.cells.length = msg.width * msg.height) :
    (player_cells msg = [] → surroundings_from_message msg = none)
    ∧ (∀ px py, (player_cells msg).getLast? = some (px, py) →
        1 ≤ px → px + 1 < (msg.width : Int) → 1 ≤ py → py + 1 < (msg.height : Int) →
        surroundings_from_message msg = some (neighborhood msg px py)) := by
  have heq : surroundings_from_message msg
      = (player_cells msg).getLast?.map (fun pr => neighborhood msg pr.1 pr.2) := by
    unfold surroundings_from_message
    rw [if_pos hlen, find_player_eq]
  constructor
  · intro h
    rw [heq, h]
    rfl
  · intro px py hlast _ _ _ _
    rw [heq, hlast]
    rfl

/-- Claim C2 (amended) witness: on the two-agent snapshot the last agent
in scan order is the interior cell (3, 1), and the classifier returns
its neighborhood rather than failing. -/
theorem classifier_zero_vs_many_agents_witness :
    (player_cells msg2p).getLast? = some (3, 1)
    ∧ surroundings_from_message msg2p = some (neighborhood msg2p 3 1) :=
  ⟨by decide,
    (classifier_zero_vs_many_agents msg2p (by decide)).2 3 1 (by decide)
      (by decide) (by decide) (by decide) (by decide)⟩

/-- Claim C4 counterexample: `random.randint(10, 200)` includes both
endpoints, so the draw 200 is legal and yields `max_turns = 400`; the
claim that 400 is never drawn is false. -/
theorem max_turns_400_reachable :
    (10 ≤ 200 ∧ 200 ≤ 200 ∧ max_turns 200 = 400)
    ∧ ¬ (∀ draw : Nat, 10 ≤ draw → draw ≤ 200 → max_turns draw ≠ 400) := by
  refine ⟨⟨by decide, by decide, rfl⟩, fun h => ?_⟩
  exact h 200 (by decide) (by decide) rfl

/-- Claim C4 (amended): `max_turns` ranges uniformly over the integer
interval [210, 400] INCLUSIVE: the values reachable from a legal
`randint(10, 200)` draw are exactly 210..400. -/
theorem max_turns_range (v : Nat) :
    (∃ draw, 10 ≤ draw ∧ draw ≤ 200 ∧ max_turns draw = v) ↔ (210 ≤ v ∧ v ≤ 400) := by
  constructor
  · rintro ⟨d, h1, h2, rfl⟩
    unfold max_turns
    omega
  · rintro ⟨h1, h2⟩
    refine ⟨v - 200, by omega, by omega, ?_⟩
    unfold max_turns
    omega

/-- Claim C4 (amended) witness: 400 and 210 are both reachable. -/
theorem max_turns_range_witness :
    (∃ draw, 10 ≤ draw ∧ draw ≤ 200 ∧ max_turns draw = 400)
    ∧ (∃ draw, 10 ≤ draw ∧ draw ≤ 200 ∧ max_turns draw = 210) :=
  ⟨(max_turns_range 400).mpr (by decide), (max_turns_range 210).mpr (by decide)⟩

/-- Claim C5: with a previous action present and a Surroundings in which
at least one direction classifies as food, the Decision Policy's
candidate set for the uniform draw is exactly the list of food
directions — a non-food direction is never returned. -/
theorem policy_food_priority (prev : String) (disp : Surroundings) (momentum : Bool)
    (hfood : food_directions disp ≠ []) :
    next_command (some prev) (some disp) momentum = food_directions disp := by
  cases disp with
  | nil => simp [food_directions] at hfood
  | cons hd tl =>
    have hne : (food_directions (hd :: tl)).isEmpty = false := by
      rw [List.isEmpty_eq_false]
      exact hfood
    simp only [next_command]
    rw [if_pos hne]

/-- Claim C5 witness: with food at N only, the candidate list is
exactly ["N"]. -/
theorem policy_food_priority_witness :
    next_command (some "S") (some dispFoodN) true = food_directions dispFoodN
    ∧ food_directions dispFoodN = ["N"] :=
  ⟨policy_food_priority "S" dispFoodN true (by decide), by decide⟩

/-- Claim C3 fails on the code (code bug): with previous action N, no
food or dose, the momentum draw taken, and N's tile blocked, the source
iterates over the KEYS of the `adjacent_directions` dict instead of over
`adjacent_directions[previous_command]`, so the candidate set is every
walkable direction — here ["NE", "S"], where "S" is not angularly
adjacent to "N" yet can be returned (with probability 1/2).  The
adjacency table itself (built at lines 103-112 and never indexed)
witnesses the intended behaviour. -/
theorem momentum_step_not_restricted_to_adjacent :
    next_command (some "N") (some dispMomentum) true = ["NE", "S"]
    ∧ food_directions dispMomentum = []
    ∧ dose_directions dispMomentum = []
    ∧ ¬ (display_get dispMomentum "N" = Tile.empty
          ∨ display_get dispMomentum "N" = Tile.monster)
    ∧ "S" ∉ adjacent_directions "N"
    ∧ "S" ∈ next_command (some "N") (some dispMomentum) true := by decide

/-- Claim C6: the Action-to-key-event mapping is total on the ten
actions, sends each to a record with alt/ctrl/shift all false, and is
injective (the mapped list, enumerated in full, has no duplicates). -/
theorem key_mapping_total_injective :
    all_commands.map key_from_command
      = [some (key_from_code "Up"), some (key_from_code "NumPad9"),
         some (key_from_code "Right"), some (key_from_code "NumPad3"),
         some (key_from_code "Down"), some (key_from_code "NumPad1"),
         some (key_from_code "Left"), some (key_from_code "NumPad7"),
         some (key_from_code "D1"), some (key_from_code "Q")]
    ∧ (all_commands.map key_from_command).Nodup
    ∧ ∀ k, (key_from_code k).alt = false ∧ (key_from_code k).ctrl = false
        ∧ (key_from_code k).shift = false :=
  ⟨by decide, by decide, fun _ => ⟨rfl, rfl, rfl⟩⟩

/-- Claim C9: the final exit code is 0 exactly when the tallied outcomes
are one per requested trial and all SUCCESS; in particular an
interrupted batch (fewer tallied outcomes than requested trials) exits
with 1. -/
theorem final_exit_code_iff (test_count : Nat) (outcomes : List Outcome)
    (hlen : outcomes.length ≤ test_count) :
    (final_return_code test_count outcomes = 0
      ↔ (outcomes.length = test_count ∧ ∀ o ∈ outcomes, o = Outcome.SUCCESS))
    ∧ (outcomes.length < test_count → final_return_code test_count outcomes = 1) := by
  have hsc : success_count outcomes ≤ outcomes.length :=
    List.length_filter_le _ _
  constructor
  · constructor
    · intro h0
      unfold final_return_code at h0
      by_cases h : success_count outcomes = test_count
      · have hl : outcomes.length = test_count := by omega
        refine ⟨hl, ?_⟩
        have hall : ∀ o ∈ outcomes, (fun o => decide (o = Outcome.SUCCESS)) o = true := by
          apply List.filter_length_eq_length.mp
          unfold success_count at h
          omega
        intro o ho
        have := hall o ho
        simpa using this
      · rw [if_neg h] at h0
        exact absurd h0 (by decide)
    · rintro ⟨hl, hall⟩
      have h : success_count outcomes = test_count := by
        unfold success_count
        rw [List.filter_length_eq_length.mpr]
        · exact hl
        · intro o ho
          simpa using hall o ho
      unfold final_return_code
      rw [if_pos h]
  · intro hlt
    unfold final_return_code
    rw [if_neg (by omega)]

/-- Claim C9 witness: two requested trials, both SUCCESS, exit 0. -/
theorem final_exit_code_iff_witness :
    (final_return_code 2 [Outcome.SUCCESS, Outcome.SUCCESS] = 0
      ↔ ([Outcome.SUCCESS, Outcome.SUCCESS].length = 2
          ∧ ∀ o ∈ [Outcome.SUCCESS, Outcome.SUCCESS], o = Outcome.SUCCESS))
    ∧ ([Outcome.SUCCESS, Outcome.SUCCESS].length < 2
        → final_return_code 2 [Outcome.SUCCESS, Outcome.SUCCESS] = 1) :=
  final_exit_code_iff 2 [Outcome.SUCCESS, Outcome.SUCCESS] (by decide)



/-- Claim C10: for every input whose Surroundings (when present) has
exactly the 8 compass keys — as every classifier output does, see
`classifier_keys` — the Decision Policy's candidate set is a nonempty
set of compass directions: Eat and Quit are never produced; and in the
session loop, Quit arises only from the turn-limit check and Eat
never. -/
theorem policy_never_eat_or_quit (prev : Option String) (disp : Option Surroundings)
    (momentum : Bool)
    (hkeys : ∀ s, disp = some s → s.map Prod.fst = directions) :
    (∀ c ∈ next_command prev disp momentum, c ∈ directions ∧ c ≠ "Eat" ∧ c ≠ "Quit")
    ∧ next_command prev disp momentum ≠ []
    ∧ (∀ turns mt c, c ∈ run_game_command turns mt prev disp momentum →
        (c = "Quit" → turns > mt) ∧ c ≠ "Eat") := by
  have hkeysdir : adjacent_directions_keys = directions := rfl
  have hboth : (∀ c ∈ next_command prev disp momentum, c ∈ directions)
      ∧ next_command prev disp momentum ≠ [] := by
    cases disp with
    | none =>
      rw [show next_command prev none momentum = directions by cases prev <;> rfl]
      exact ⟨fun c hc => hc, by decide⟩
    | some s =>
      cases prev with
      | none =>
        rw [show next_command none (some s) momentum = directions by cases s <;> rfl]
        exact ⟨fun c hc => hc, by decide⟩
      | some p =>
        cases s with
        | nil =>
          rw [show next_command (some p) (some []) momentum = directions from rfl]
          exact ⟨fun c hc => hc, by decide⟩
        | cons hd tl =>
          have hkeq : (hd :: tl).map Prod.fst = directions := hkeys (hd :: tl) rfl
          rcases next_command_cases p (hd :: tl) momentum with
            h | ⟨h, hne⟩ | ⟨h, hne⟩ | ⟨h, hp⟩ | ⟨h, hne⟩ | ⟨h, hne⟩
          · rw [h]
            exact ⟨fun c hc => hc, by decide⟩
          · rw [h]
            refine ⟨fun c hc => ?_, hne⟩
            simp only [food_directions] at hc
            have := mem_fst_of_mem_fst_filter hc
            rwa [hkeq] at this
          · rw [h]
            refine ⟨fun c hc => ?_, hne⟩
            simp only [dose_directions] at hc
            have := mem_fst_of_mem_fst_filter hc
            rwa [hkeq] at this
          · rw [h]
            refine ⟨fun c hc => ?_, List.cons_ne_nil p []⟩
            have hcp : c = p := by simpa using hc
            rw [hcp]
            exact hp
          · rw [h]
            refine ⟨fun c hc => ?_, hne⟩
            simp only [preferred_directions] at hc
            have := List.mem_of_mem_filter hc
            rwa [hkeysdir] at this
          · rw [h]
            refine ⟨fun c hc => ?_, hne⟩
            simp only [walkable_directions] at hc
            have := mem_fst_of_mem_fst_filter hc
            rwa [hkeq] at this
  refine ⟨fun c hc => ⟨hboth.1 c hc, mem_directions_ne c (hboth.1 c hc)⟩, hboth.2, ?_⟩
  intro turns mt c hc
  unfold run_game_command at hc
  by_cases ht : turns > mt
  · rw [if_pos ht] at hc
    have hcq : c = "Quit" := by simpa using hc
    subst hcq
    exact ⟨fun _ => ht, by decide⟩
  · rw [if_neg ht] at hc
    have hcd := hboth.1 c hc
    exact ⟨fun hq => absurd (hq ▸ hcd) (by decide), (mem_directions_ne c hcd).1⟩

/-- Claim C10 witness: a concrete momentum state — every candidate is a
compass direction, the candidate list is nonempty, and the session
loop's Quit appears only past the turn limit. -/
theorem policy_never_eat_or_quit_witness :
    (∀ c ∈ next_command (some "N") (some dispMomentum) true,
        c ∈ directions ∧ c ≠ "Eat" ∧ c ≠ "Quit")
    ∧ next_command (some "N") (some dispMomentum) true ≠ []
    ∧ (∀ turns mt c, c ∈ run_game_command turns mt (some "N") (some dispMomentum) true →
        (c = "Quit" → turns > mt) ∧ c ≠ "Eat") :=
  policy_never_eat_or_quit (some "N") (some dispMomentum) true
    (fun s hs => by
      obtain rfl : dispMomentum = s := by injection hs
      decide)

/-- Claim C1 counterexample: a trial whose session ended in a reply
timeout (game still running afterwards, killed; replay exits 0) is
classified SUCCESS, and the replay phase IS run — not classified
Unexpected with no replay, as the claim states. -/
theorem timeout_trial_classified_success :
    env_timeout.session_end = SessionEnd.timeout
    ∧ test_run env_timeout
        = (Outcome.SUCCESS, [Effect.kill_game, Effect.run_replay, Effect.unlink_temp]) := by
  decide

/-- Claim C1 (amended): a reply timeout aborts the session loop (the
loop breaks), but `test_run` never observes how the session ended: the
classification is identical to a normally-quit session.  After a
timeout, unless the game process itself exited nonzero, the orchestrator
proceeds to the replay phase and classifies the trial by the replay's
exit code. -/
theorem timeout_has_no_effect_on_classification (env : TrialEnv)
    (hse : env.session_end = SessionEnd.timeout)
    (hb : env.build_rc = 0) (ha : env.game_alive_after_settle = true)
    (hp : env.game_poll_after_session = none ∨ env.game_poll_after_session = some 0) :
    test_run env = test_run { env with session_end := SessionEnd.quit }
    ∧ Effect.run_replay ∈ (test_run env).2
    ∧ (test_run env).1
        = (if env.replay_rc = 0 then Outcome.SUCCESS else Outcome.FAILURE) := by
  rcases env with ⟨b, g, se, pl, rr⟩
  simp only at hse hb ha hp ⊢
  subst hse
  subst hb
  subst ha
  rcases hp with h | h <;> subst h <;>
    by_cases hr : rr = 0 <;>
      simp [test_run, replay_phase, hr]

/-- Claim C1 (amended) witness: the concrete timed-out trial. -/
theorem timeout_has_no_effect_on_classification_witness :
    test_run env_timeout = test_run { env_timeout with session_end := SessionEnd.quit }
    ∧ Effect.run_replay ∈ (test_run env_timeout).2
    ∧ (test_run env_timeout).1
        = (if env_timeout.replay_rc = 0 then Outcome.SUCCESS else Outcome.FAILURE) :=
  timeout_has_no_effect_on_classification env_timeout rfl rfl rfl (Or.inl rfl)

/-- Claim C7: for every trial that reaches the replay phase — the replay
effect occurs — replay exit 0 gives SUCCESS, the temporary trace is
deleted and nothing is archived; nonzero exit gives FAILURE, the trace
is copied to the archive BEFORE the temporary copy is deleted (the
copy precedes the unlink in the effect order), and the archive path is
reported. -/
theorem replay_exit_classification (env : TrialEnv)
    (hreach : Effect.run_replay ∈ (test_run env).2) :
    (env.replay_rc = 0 →
      (test_run env).1 = Outcome.SUCCESS
      ∧ Effect.copy_trace ∉ (test_run env).2
      ∧ Effect.unlink_temp ∈ (test_run env).2)
    ∧ (env.replay_rc ≠ 0 →
      (test_run env).1 = Outcome.FAILURE
      ∧ List.Sublist [Effect.copy_trace, Effect.unlink_temp] (test_run env).2
      ∧ Effect.report_bug_path ∈ (test_run env).2) := by
  rcases env with ⟨b, g, se, pl, rr⟩
  by_cases hb : b = 0
  · subst hb
    cases g with
    | false => simp [test_run] at hreach
    | true =>
      rcases pl with _ | rc
      · by_cases hr : rr = 0
        · simp [test_run, replay_phase, hr]
        · simp [test_run, replay_phase, hr]
          decide
      · by_cases hrc : rc = 0
        · subst hrc
          by_cases hr : rr = 0
          · simp [test_run, replay_phase, hr]
          · simp [test_run, replay_phase, hr]
        · simp [test_run, replay_phase, hrc] at hreach
  · simp [test_run, hb] at hreach

/-- Claim C7 witness: a failing replay archives the trace before
deleting the temporary copy. -/
theorem replay_exit_classification_witness :
    (env_replay_fail.replay_rc = 0 →
      (test_run env_replay_fail).1 = Outcome.SUCCESS
      ∧ Effect.copy_trace ∉ (test_run env_replay_fail).2
      ∧ Effect.unlink_temp ∈ (test_run env_replay_fail).2)
    ∧ (env_replay_fail.replay_rc ≠ 0 →
      (test_run env_replay_fail).1 = Outcome.FAILURE
      ∧ List.Sublist [Effect.copy_trace, Effect.unlink_temp] (test_run env_replay_fail).2
      ∧ Effect.report_bug_path ∈ (test_run env_replay_fail).2) :=
  replay_exit_classification env_replay_fail (by decide)
